import Mathlib

/-!
# Verification of the Exemem desktop passkey client (`src/passkey.js`)

Shallow embedding of the passkey authentication client: the base64url
codec (`base64UrlEncode` / `base64UrlDecode`, built on the platform
`btoa` / `atob` primitives, modelled after the WHATWG forgiving-base64
algorithm), the ceremony option translators (`convertCreationOptions`,
`convertRequestOptions`), the register / login flow orchestrators
(`registerPasskey`, `loginPasskey`) and the API-key issuance client
(`createApiKey`).  JavaScript `undefined`/`null` field values are
modelled with `Option`; JavaScript falsy-or-default (`x || d`) with
`jsOrStr` / `jsOrNat`; thrown exceptions with `Except JSError`.
-/

namespace Passkey

/-- Standard base64 alphabet, indexed 0..63 (used by `btoa`/`atob`). -/
def b64Chars : List Char :=
  "ABCDEFGHIJKLMNOPQRSTUVWXYZabcdefghijklmnopqrstuvwxyz0123456789+/".toList

/-- Character for a 6-bit value (out-of-range values never arise for byte input). -/
def b64Char (n : Nat) : Char := b64Chars.getD n 'A'

/-- 6-bit value of a standard-base64 character; `none` for anything else. -/
def b64Val (c : Char) : Option Nat :=
  if 65 ≤ c.toNat ∧ c.toNat ≤ 90 then some (c.toNat - 65)
  else if 97 ≤ c.toNat ∧ c.toNat ≤ 122 then some (c.toNat - 97 + 26)
  else if 48 ≤ c.toNat ∧ c.toNat ≤ 57 then some (c.toNat - 48 + 52)
  else if c = '+' then some 62
  else if c = '/' then some 63
  else none

/-- Four base64 characters of a full 3-byte group. -/
def btoa3 (a b c : Nat) : List Char :=
  [b64Char (a / 4), b64Char (a % 4 * 16 + b / 16),
   b64Char (b % 16 * 4 + c / 64), b64Char (c % 64)]

/-- The platform `btoa`: standard base64 of a byte sequence, `=`-padded. -/
def btoaChars : List Nat → List Char
  | [] => []
  | [a] => [b64Char (a / 4), b64Char (a % 4 * 16), '=', '=']
  | [a, b] => [b64Char (a / 4), b64Char (a % 4 * 16 + b / 16), b64Char (b % 16 * 4), '=']
  | a :: b :: c :: rest => btoa3 a b c ++ btoaChars rest

/-- The encode-side replacements: `+` becomes `-` and `/` becomes `_`. -/
def urlOfStd (c : Char) : Char :=
  if c = '+' then '-' else if c = '/' then '_' else c

/-- The decode-side replacements: `-` becomes `+` and `_` becomes `/`. -/
def stdOfUrl (c : Char) : Char :=
  if c = '-' then '+' else if c = '_' then '/' else c

/-- The trailing-padding strip of the encoder: remove all trailing `=`. -/
def dropTrailingEq (l : List Char) : List Char :=
  (l.reverse.dropWhile (fun c => c = '=')).reverse

/-- `base64UrlEncode` from `src/passkey.js` lines 9-19: `btoa` of the bytes,
then the url-safe character replacements, then trailing padding stripped. -/
def base64UrlEncode (b : List Nat) : List Char :=
  dropTrailingEq ((btoaChars b).map urlOfStd)

/-- ASCII whitespace, removed by the forgiving-base64 algorithm of `atob`. -/
def isAsciiWhitespace (c : Char) : Bool :=
  c = ' ' || c = '\t' || c = '\n' || c = '\x0c' || c = '\r'

/-- Forgiving-base64 step 2: if the data ends with one or two `=`, remove them. -/
def dropPadAtob (l : List Char) : List Char :=
  (if l.reverse.take 2 = ['=', '='] then l.reverse.drop 2
   else if l.reverse.take 1 = ['='] then l.reverse.drop 1
   else l.reverse).reverse

/-- 6-bit values of a character list; `none` if any character is invalid. -/
def sextets : List Char → Option (List Nat)
  | [] => some []
  | c :: r =>
    match b64Val c, sextets r with
    | some v, some vs => some (v :: vs)
    | _, _ => none

/-- Forgiving-base64 bit reassembly: each full group of four 6-bit values
yields three bytes; a final group of two (resp. three) values yields one
(resp. two) bytes, discarding the low 4 (resp. 2) bits. -/
def bytesOfSextets : List Nat → List Nat
  | s0 :: s1 :: s2 :: s3 :: rest =>
      (s0 * 4 + s1 / 16) :: (s1 % 16 * 16 + s2 / 4) :: (s2 % 4 * 64 + s3)
        :: bytesOfSextets rest
  | [s0, s1] => [s0 * 4 + s1 / 16]
  | [s0, s1, s2] => [s0 * 4 + s1 / 16, s1 % 16 * 16 + s2 / 4]
  | _ => []

/-- Forgiving-base64 step 1: remove all ASCII whitespace. -/
def wsStripped (l : List Char) : List Char :=
  l.filter (fun c => !isAsciiWhitespace c)

/-- Forgiving-base64 steps 1-2: strip whitespace, then, if the length is
a multiple of 4, remove up to two trailing `=`. -/
def atobStripped (l : List Char) : List Char :=
  if (wsStripped l).length % 4 = 0 then dropPadAtob (wsStripped l)
  else wsStripped l

/-- The platform `atob` (WHATWG forgiving-base64 decode): strip ASCII
whitespace; if the length is a multiple of 4 remove up to two trailing `=`;
fail if the length is then ≡ 1 mod 4 or any character is outside the
standard alphabet.  `none` models the thrown `InvalidCharacterError`. -/
def atobBytes (l : List Char) : Option (List Nat) :=
  if (atobStripped l).length % 4 = 1 then none
  else (sextets (atobStripped l)).map bytesOfSextets

/-- Padding restoration of `base64UrlDecode` lines 23-26: pad with `=`
to a multiple of 4. -/
def padTo4 (l : List Char) : List Char :=
  if l.length % 4 = 0 then l else l ++ List.replicate (4 - l.length % 4) '='

/-- `base64UrlDecode` from `src/passkey.js` lines 21-33: the url-to-standard
character replacements, restore padding, `atob`; the byte-extraction loop
(`charCodeAt`) is the identity on the code units `atob` produces. -/
def base64UrlDecode (s : List Char) : Option (List Nat) :=
  atobBytes (padTo4 (s.map stdOfUrl))

/-- The base64url alphabet (`A-Z`, `a-z`, `0-9`, `-`, `_`), as the spec
uses the term; `+`, `/`, `=` and whitespace are outside it. -/
def isB64UrlChar (c : Char) : Bool :=
  let n := c.toNat
  (65 ≤ n && n ≤ 90) || (97 ≤ n && n ≤ 122) || (48 ≤ n && n ≤ 57)
    || c = '-' || c = '_'


/-! ## JavaScript-semantics helpers -/

/-- Exceptions that can propagate out of the passkey functions: a
`TypeError` from a property access or method call on `undefined`, or the
`InvalidCharacterError` thrown by `atob`. -/
inductive JSError where
  | typeError (ctx : String)
  | invalidCharacter
deriving DecidableEq, Repr

/-- JavaScript `x || d` for a possibly-absent string `x` (the empty string
is falsy). -/
def jsOrStr (x : Option String) (d : String) : String :=
  match x with
  | some s => if s = "" then d else s
  | none => d

/-- JavaScript `x || d` for a possibly-absent number `x` (`0` is falsy). -/
def jsOrNat (x : Option Nat) (d : Nat) : Nat :=
  match x with
  | some n => if n = 0 then d else n
  | none => d

/-- JavaScript `a || b` where both sides are possibly-absent strings
(used for `data.api_key || data.key`). -/
def jsOrOpt (a b : Option String) : Option String :=
  match a with
  | some s => if s = "" then b else some s
  | none => b

/-- Truthiness of a possibly-absent string value. -/
def jsTruthyStr (x : Option String) : Bool :=
  match x with
  | some s => s ≠ ""
  | none => false

/-! ## Ceremony option translators (`convertCreationOptions`,
`convertRequestOptions`, `src/passkey.js` lines 36-81)

Server-supplied JSON structures carry `Option` in every position the code
can observe as `undefined`.  Fields the code copies verbatim without
inspecting (`rp`, `pubKeyCredParams`, `rpId`, `type`, `transports`) are
modelled as opaque strings. -/

structure ServerUser where
  id : Option (List Char)
  name : String
  displayName : Option String
deriving DecidableEq, Repr

structure ServerAuthSel where
  authenticatorAttachment : Option String
  residentKey : Option String
  userVerification : Option String
deriving DecidableEq, Repr

structure ServerCredDesc where
  id : List Char
  type : String
  transports : Option (List String)
deriving DecidableEq, Repr

structure CreationPublicKey where
  challenge : Option (List Char)
  rp : Option String
  user : Option ServerUser
  pubKeyCredParams : Option (List String)
  timeout : Option Nat
  attestation : Option String
  authenticatorSelection : Option ServerAuthSel
  excludeCredentials : Option (List ServerCredDesc)
deriving DecidableEq, Repr

structure ServerCreationOptions where
  publicKey : Option CreationPublicKey
deriving DecidableEq, Repr

structure RequestPublicKey where
  challenge : Option (List Char)
  timeout : Option Nat
  rpId : Option String
  allowCredentials : Option (List ServerCredDesc)
  userVerification : Option String
deriving DecidableEq, Repr

structure ServerRequestOptions where
  publicKey : Option RequestPublicKey
deriving DecidableEq, Repr

structure PlatformUser where
  id : List Nat
  name : String
  displayName : String
deriving DecidableEq, Repr

structure PlatformAuthSel where
  authenticatorAttachment : String
  residentKey : String
  userVerification : String
deriving DecidableEq, Repr

structure PlatformCredDesc where
  id : List Nat
  type : String
  transports : Option (List String)
deriving DecidableEq, Repr

structure PlatformCreationOptions where
  challenge : List Nat
  rp : Option String
  user : PlatformUser
  pubKeyCredParams : Option (List String)
  timeout : Nat
  attestation : String
  authenticatorSelection : PlatformAuthSel
  excludeCredentials : List PlatformCredDesc
deriving DecidableEq, Repr

structure PlatformRequestOptions where
  challenge : List Nat
  timeout : Nat
  rpId : Option String
  allowCredentials : List PlatformCredDesc
  userVerification : String
deriving DecidableEq, Repr

/-- Decode the `id` of each credential descriptor of an
`excludeCredentials` / `allowCredentials` list; `none` if any decode throws. -/
def decodeCredList : List ServerCredDesc → Option (List PlatformCredDesc)
  | [] => some []
  | c :: r =>
    match base64UrlDecode c.id, decodeCredList r with
    | some idBytes, some rest =>
        some ({ id := idBytes, type := c.type, transports := c.transports } :: rest)
    | _, _ => none

/-- `convertCreationOptions` (`src/passkey.js` lines 36-64).  A missing
`publicKey`, `challenge`, `user` or `user.id` makes the JavaScript throw a
`TypeError` (property access or `String.replace` on `undefined`); a bad
base64url string makes `atob` throw. -/
def convertCreationOptions (so : ServerCreationOptions) :
    Except JSError PlatformCreationOptions :=
  match so.publicKey with
  | none => .error (.typeError "cannot read properties of undefined")
  | some pk =>
    match pk.challenge with
    | none => .error (.typeError "str.replace is not a function on undefined")
    | some ch =>
      match base64UrlDecode ch with
      | none => .error .invalidCharacter
      | some chBytes =>
        match pk.user with
        | none => .error (.typeError "cannot read properties of undefined")
        | some u =>
          match u.id with
          | none => .error (.typeError "str.replace is not a function on undefined")
          | some uid =>
            match base64UrlDecode uid with
            | none => .error .invalidCharacter
            | some uidBytes =>
              match decodeCredList (pk.excludeCredentials.getD []) with
              | none => .error .invalidCharacter
              | some excl =>
                .ok
                  { challenge := chBytes
                    rp := pk.rp
                    user :=
                      { id := uidBytes
                        name := u.name
                        displayName := jsOrStr u.displayName u.name }
                    pubKeyCredParams := pk.pubKeyCredParams
                    timeout := jsOrNat pk.timeout 60000
                    attestation := jsOrStr pk.attestation "none"
                    authenticatorSelection :=
                      { authenticatorAttachment :=
                          jsOrStr (pk.authenticatorSelection.bind
                            (·.authenticatorAttachment)) "platform"
                        residentKey :=
                          jsOrStr (pk.authenticatorSelection.bind
                            (·.residentKey)) "preferred"
                        userVerification :=
                          jsOrStr (pk.authenticatorSelection.bind
                            (·.userVerification)) "preferred" }
                    excludeCredentials := excl }

/-- `convertRequestOptions` (`src/passkey.js` lines 67-81). -/
def convertRequestOptions (so : ServerRequestOptions) :
    Except JSError PlatformRequestOptions :=
  match so.publicKey with
  | none => .error (.typeError "cannot read properties of undefined")
  | some pk =>
    match pk.challenge with
    | none => .error (.typeError "str.replace is not a function on undefined")
    | some ch =>
      match base64UrlDecode ch with
      | none => .error .invalidCharacter
      | some chBytes =>
        match decodeCredList (pk.allowCredentials.getD []) with
        | none => .error .invalidCharacter
        | some allow =>
          .ok
            { challenge := chBytes
              timeout := jsOrNat pk.timeout 60000
              rpId := pk.rpId
              allowCredentials := allow
              userVerification := jsOrStr pk.userVerification "preferred" }

/-! ## Flow orchestrators (`registerPasskey`, `loginPasskey`,
`src/passkey.js` lines 98-239)

Each flow is a pure function of its environment: the parsed start
response, the platform authenticator's outcome, and the parsed finish
response.  `HttpResp.ok`/`status` model `res.ok`/`res.status`; the ceremony
code never reads them, but they are part of the environment so that this
can be stated.  The run is instrumented with the number of authenticator
invocations, the number of finish requests, and the finish request body
actually sent. -/

/-- An HTTP response with parsed JSON body (`none` models JSON `null`). -/
structure HttpResp (β : Type) where
  ok : Bool
  status : Nat
  body : Option β
deriving DecidableEq, Repr

/-- Body of a ceremony start response: truthiness of `ok`, the `options`
value, and the optional `error` message. -/
structure StartBody (σ : Type) where
  ok : Bool
  options : Option σ
  error : Option String
deriving DecidableEq, Repr

/-- Body of a ceremony finish response. -/
structure FinishBody where
  ok : Bool
  user_hash : Option String
  session_token : Option String
  error : Option String
deriving DecidableEq, Repr

/-- Outcome of `navigator.credentials.create` / `navigator.credentials.get`:
a credential, a `null` resolution, or a rejection whose `message` property
may itself be absent or empty. -/
inductive AuthOutcome (κ : Type) where
  | ok (cred : κ)
  | nullCred
  | err (message : Option String)
deriving DecidableEq, Repr

/-- The credential object produced by `navigator.credentials.create`. -/
structure RegCredential where
  id : String
  rawId : List Nat
  type : String
  clientDataJSON : List Nat
  attestationObject : List Nat
deriving DecidableEq, Repr

/-- The credential object produced by `navigator.credentials.get`. -/
structure LoginCredential where
  id : String
  rawId : List Nat
  type : String
  clientDataJSON : List Nat
  authenticatorData : List Nat
  signature : List Nat
  userHandle : Option (List Nat)
deriving DecidableEq, Repr

/-- The `credentialData` sent to the register finish endpoint
(`src/passkey.js` lines 133-143), binary fields base64url-encoded. -/
structure RegCredentialData where
  id : String
  rawId : List Char
  type : String
  clientDataJSON : List Char
  attestationObject : List Char
deriving DecidableEq, Repr

/-- The `credentialData` sent to the login finish endpoint
(`src/passkey.js` lines 206-218). -/
structure LoginCredentialData where
  id : String
  rawId : List Char
  type : String
  clientDataJSON : List Char
  authenticatorData : List Char
  signature : List Char
  userHandle : Option (List Char)
deriving DecidableEq, Repr

/-- A `\x7b challenge, credential \x7d` finish request body; the challenge
is `startData.options.publicKey?.challenge` and may be `undefined`. -/
structure FinishRequest (γ : Type) where
  challenge : Option (List Char)
  credential : γ
deriving DecidableEq, Repr

/-- The record a flow returns on normal completion
(`\x7b ok, userHash?, sessionToken?, error? \x7d`). -/
structure AuthResult where
  ok : Bool
  userHash : Option String
  sessionToken : Option String
  error : Option String
deriving DecidableEq, Repr

instance {ε α : Type} [DecidableEq ε] [DecidableEq α] :
    DecidableEq (Except ε α) := fun x y =>
  match x, y with
  | .error a, .error b =>
      if h : a = b then .isTrue (by rw [h]) else .isFalse (by simp [h])
  | .ok a, .ok b =>
      if h : a = b then .isTrue (by rw [h]) else .isFalse (by simp [h])
  | .error _, .ok _ => .isFalse (by simp)
  | .ok _, .error _ => .isFalse (by simp)

/-- An instrumented flow run: the JavaScript return value or thrown
exception, how many times the authenticator capability was invoked, how
many finish requests were issued, and the finish request body sent. -/
structure FlowRun (γ : Type) where
  result : Except JSError AuthResult
  authCalls : Nat
  finishCalls : Nat
  finishReq : Option (FinishRequest γ)
deriving DecidableEq, Repr

/-- Environment of one `registerPasskey` call. -/
structure RegisterEnv where
  startRes : HttpResp (StartBody ServerCreationOptions)
  auth : AuthOutcome RegCredential
  finishRes : HttpResp FinishBody
deriving DecidableEq, Repr

/-- Environment of one `loginPasskey` call. -/
structure LoginEnv where
  startRes : HttpResp (StartBody ServerRequestOptions)
  auth : AuthOutcome LoginCredential
  finishRes : HttpResp FinishBody
deriving DecidableEq, Repr

/-- `registerPasskey` (`src/passkey.js` lines 98-161). -/
def registerPasskey (env : RegisterEnv) : FlowRun RegCredentialData :=
  match env.startRes.body with
  | none =>
      { result := .ok { ok := false, userHash := none, sessionToken := none,
                        error := some "Failed to start registration" }
        authCalls := 0, finishCalls := 0, finishReq := none }
  | some sb =>
    if sb.ok = false ∨ sb.options = none then
      { result := .ok { ok := false, userHash := none, sessionToken := none,
                        error := some (jsOrStr sb.error "Failed to start registration") }
        authCalls := 0, finishCalls := 0, finishReq := none }
    else
      match sb.options with
      | none =>
          { result := .ok { ok := false, userHash := none, sessionToken := none,
                            error := some (jsOrStr sb.error "Failed to start registration") }
            authCalls := 0, finishCalls := 0, finishReq := none }
      | some opts =>
        let challenge := (opts.publicKey.bind (·.challenge))
        match convertCreationOptions opts with
        | .error e =>
            { result := .error e, authCalls := 0, finishCalls := 0, finishReq := none }
        | .ok _creationOptions =>
          match env.auth with
          | .err msg =>
              { result := .ok { ok := false, userHash := none, sessionToken := none,
                                error := some (jsOrStr msg "User cancelled registration") }
                authCalls := 1, finishCalls := 0, finishReq := none }
          | .nullCred =>
              { result := .ok { ok := false, userHash := none, sessionToken := none,
                                error := some "User cancelled registration" }
                authCalls := 1, finishCalls := 0, finishReq := none }
          | .ok credential =>
            let credentialData : RegCredentialData :=
              { id := credential.id
                rawId := base64UrlEncode credential.rawId
                type := credential.type
                clientDataJSON := base64UrlEncode credential.clientDataJSON
                attestationObject := base64UrlEncode credential.attestationObject }
            let req : FinishRequest RegCredentialData :=
              { challenge := challenge, credential := credentialData }
            match env.finishRes.body with
            | none =>
                { result := .ok { ok := false, userHash := none, sessionToken := none,
                                  error := some "Registration failed" }
                  authCalls := 1, finishCalls := 1, finishReq := some req }
            | some fb =>
              if fb.ok = false then
                { result := .ok { ok := false, userHash := none, sessionToken := none,
                                  error := some (jsOrStr fb.error "Registration failed") }
                  authCalls := 1, finishCalls := 1, finishReq := some req }
              else
                { result := .ok { ok := true, userHash := fb.user_hash,
                                  sessionToken := fb.session_token, error := none }
                  authCalls := 1, finishCalls := 1, finishReq := some req }

/-- `loginPasskey` (`src/passkey.js` lines 168-239). -/
def loginPasskey (env : LoginEnv) : FlowRun LoginCredentialData :=
  match env.startRes.body with
  | none =>
      { result := .ok { ok := false, userHash := none, sessionToken := none,
                        error := some "Failed to start authentication" }
        authCalls := 0, finishCalls := 0, finishReq := none }
  | some sb =>
    if sb.ok = false ∨ sb.options = none then
      { result := .ok { ok := false, userHash := none, sessionToken := none,
                        error := some (jsOrStr sb.error "Failed to start authentication") }
        authCalls := 0, finishCalls := 0, finishReq := none }
    else
      match sb.options with
      | none =>
          { result := .ok { ok := false, userHash := none, sessionToken := none,
                            error := some (jsOrStr sb.error "Failed to start authentication") }
            authCalls := 0, finishCalls := 0, finishReq := none }
      | some opts =>
        let challenge := (opts.publicKey.bind (·.challenge))
        match convertRequestOptions opts with
        | .error e =>
            { result := .error e, authCalls := 0, finishCalls := 0, finishReq := none }
        | .ok _requestOptions =>
          match env.auth with
          | .err msg =>
              { result := .ok { ok := false, userHash := none, sessionToken := none,
                                error := some (jsOrStr msg "User cancelled authentication") }
                authCalls := 1, finishCalls := 0, finishReq := none }
          | .nullCred =>
              { result := .ok { ok := false, userHash := none, sessionToken := none,
                                error := some "User cancelled authentication" }
                authCalls := 1, finishCalls := 0, finishReq := none }
          | .ok credential =>
            let credentialData : LoginCredentialData :=
              { id := credential.id
                rawId := base64UrlEncode credential.rawId
                type := credential.type
                clientDataJSON := base64UrlEncode credential.clientDataJSON
                authenticatorData := base64UrlEncode credential.authenticatorData
                signature := base64UrlEncode credential.signature
                userHandle := credential.userHandle.map base64UrlEncode }
            let req : FinishRequest LoginCredentialData :=
              { challenge := challenge, credential := credentialData }
            match env.finishRes.body with
            | none =>
                { result := .ok { ok := false, userHash := none, sessionToken := none,
                                  error := some "Authentication failed" }
                  authCalls := 1, finishCalls := 1, finishReq := some req }
            | some fb =>
              if fb.ok = false then
                { result := .ok { ok := false, userHash := none, sessionToken := none,
                                  error := some (jsOrStr fb.error "Authentication failed") }
                  authCalls := 1, finishCalls := 1, finishReq := some req }
              else
                { result := .ok { ok := true, userHash := fb.user_hash,
                                  sessionToken := fb.session_token, error := none }
                  authCalls := 1, finishCalls := 1, finishReq := some req }

/-! ## API-key issuance (`createApiKey`, `src/passkey.js` lines 248-274) -/

/-- Body of the issuance response. -/
structure ApiKeyBody where
  api_key : Option String
  key : Option String
  error : Option String
deriving DecidableEq, Repr

/-- The record `createApiKey` returns. -/
structure ApiKeyResult where
  ok : Bool
  apiKey : Option String
  error : Option String
deriving DecidableEq, Repr

/-- Environment of one `createApiKey` call. -/
structure ApiKeyEnv where
  resOk : Bool
  status : Nat
  body : Option ApiKeyBody
deriving DecidableEq, Repr

/-- `createApiKey` (`src/passkey.js` lines 248-274).  Note the
short-circuit: when `res.ok` is false, `data.error` is never read, so a
`null` body only throws in the `res.ok` branch. -/
def createApiKey (env : ApiKeyEnv) : Except JSError ApiKeyResult :=
  let fallback := "API key creation failed (" ++ toString env.status ++ ")"
  if env.resOk = false then
    .ok { ok := false, apiKey := none
          error := some (jsOrStr (env.body.bind (·.error)) fallback) }
  else
    match env.body with
    | none => .error (.typeError "cannot read properties of null")
    | some data =>
      if jsTruthyStr data.error then
        .ok { ok := false, apiKey := none
              error := some (jsOrStr data.error fallback) }
      else
        match jsOrOpt data.api_key data.key with
        | none =>
            .ok { ok := false, apiKey := none
                  error := some "No API key returned from server" }
        | some k =>
          if k = "" then
            .ok { ok := false, apiKey := none
                  error := some "No API key returned from server" }
          else
            .ok { ok := true, apiKey := some k, error := none }

/-! ## Concrete fixtures used by witnesses and counterexamples -/

/-- Well-formed registration start options: valid base64url `challenge`
and `user.id`, all defaultable fields absent. -/
def goodCreationOptions : ServerCreationOptions :=
  { publicKey := some
      { challenge := some "AAAA".toList
        rp := some "rp"
        user := some { id := some "AA".toList, name := "user", displayName := none }
        pubKeyCredParams := some ["pk-param"]
        timeout := none
        attestation := none
        authenticatorSelection := none
        excludeCredentials := none } }

/-- Well-formed login start options. -/
def goodRequestOptions : ServerRequestOptions :=
  { publicKey := some
      { challenge := some "AAAA".toList
        timeout := none
        rpId := some "rp"
        allowCredentials := none
        userVerification := none } }

/-- A registration credential as produced by the authenticator. -/
def regCred : RegCredential :=
  { id := "cred-id", rawId := [1, 2, 3], type := "public-key"
    clientDataJSON := [4, 5], attestationObject := [6] }

/-- A login credential as produced by the authenticator. -/
def loginCred : LoginCredential :=
  { id := "cred-id", rawId := [1, 2, 3], type := "public-key"
    clientDataJSON := [4, 5], authenticatorData := [6], signature := [7]
    userHandle := none }

/-- A register environment in which every step succeeds. -/
def goodRegisterEnv : RegisterEnv :=
  { startRes := ⟨true, 200, some ⟨true, some goodCreationOptions, none⟩⟩
    auth := .ok regCred
    finishRes := ⟨true, 200, some ⟨true, some "user-hash", some "session-token", none⟩⟩ }

/-- A login environment in which every step succeeds. -/
def goodLoginEnv : LoginEnv :=
  { startRes := ⟨true, 200, some ⟨true, some goodRequestOptions, none⟩⟩
    auth := .ok loginCred
    finishRes := ⟨true, 200, some ⟨true, some "user-hash", some "session-token", none⟩⟩ }


/-! ## Claim theorems -/

/-- **C2.**  For every register or login flow in which the start step
succeeds (body `ok` truthy with options present and convertible), the
local ceremony produces a credential, and the finish endpoint responds
with `ok:true`, `user_hash "abc"`, `session_token "xyz"`, the flow result
is a success outcome whose `userHash` is `"abc"` and whose `sessionToken`
is `"xyz"` — the identity fields are taken unchanged from the finish
response. -/
theorem c2_success_identity_verbatim
    (envR : RegisterEnv) (envL : LoginEnv)
    (sbR : StartBody ServerCreationOptions) (oR : ServerCreationOptions)
    (reqR : PlatformCreationOptions) (credR : RegCredential) (fbR : FinishBody)
    (sbL : StartBody ServerRequestOptions) (oL : ServerRequestOptions)
    (reqL : PlatformRequestOptions) (credL : LoginCredential) (fbL : FinishBody)
    (hR1 : envR.startRes.body = some sbR) (hR2 : sbR.ok = true)
    (hR3 : sbR.options = some oR)
    (hR4 : convertCreationOptions oR = .ok reqR)
    (hR5 : envR.auth = .ok credR)
    (hR6 : envR.finishRes.body = some fbR) (hR7 : fbR.ok = true)
    (hR8 : fbR.user_hash = some "abc") (hR9 : fbR.session_token = some "xyz")
    (hL1 : envL.startRes.body = some sbL) (hL2 : sbL.ok = true)
    (hL3 : sbL.options = some oL)
    (hL4 : convertRequestOptions oL = .ok reqL)
    (hL5 : envL.auth = .ok credL)
    (hL6 : envL.finishRes.body = some fbL) (hL7 : fbL.ok = true)
    (hL8 : fbL.user_hash = some "abc") (hL9 : fbL.session_token = some "xyz") :
    (registerPasskey envR).result = .ok ⟨true, some "abc", some "xyz", none⟩ ∧
    (loginPasskey envL).result = .ok ⟨true, some "abc", some "xyz", none⟩ := by
  constructor
  · simp [registerPasskey, hR1, hR2, hR3, hR4, hR5, hR6, hR7, hR8, hR9]
  · simp [loginPasskey, hL1, hL2, hL3, hL4, hL5, hL6, hL7, hL8, hL9]

/-- Witness for C2 at a concrete environment. -/
theorem c2_success_identity_verbatim_witness :
    (registerPasskey { goodRegisterEnv with
        finishRes := ⟨true, 200, some ⟨true, some "abc", some "xyz", none⟩⟩ }).result =
      .ok ⟨true, some "abc", some "xyz", none⟩ ∧
    (loginPasskey { goodLoginEnv with
        finishRes := ⟨true, 200, some ⟨true, some "abc", some "xyz", none⟩⟩ }).result =
      .ok ⟨true, some "abc", some "xyz", none⟩ :=
  c2_success_identity_verbatim _ _
    ⟨true, some goodCreationOptions, none⟩ goodCreationOptions
    ⟨[0, 0, 0], some "rp", ⟨[0], "user", "user"⟩, some ["pk-param"], 60000,
      "none", ⟨"platform", "preferred", "preferred"⟩, []⟩
    regCred ⟨true, some "abc", some "xyz", none⟩
    ⟨true, some goodRequestOptions, none⟩ goodRequestOptions
    ⟨[0, 0, 0], 60000, some "rp", [], "preferred"⟩
    loginCred ⟨true, some "abc", some "xyz", none⟩
    (by decide) (by decide) (by decide) (by decide) (by decide) (by decide)
    (by decide) (by decide) (by decide)
    (by decide) (by decide) (by decide) (by decide) (by decide) (by decide)
    (by decide) (by decide) (by decide)

/-- **C1, counterexample.**  The claim states that no result is ever
returned with the success flag set but `userHash` or `sessionToken`
absent.  The code copies `user_hash` / `session_token` from the finish
response without checking their presence: a finish response
`\x7b ok:true \x7d` (no identity fields) yields the returned value
`\x7b ok:true, userHash:undefined, sessionToken:undefined \x7d`. -/
theorem c1_counterexample :
    (registerPasskey { goodRegisterEnv with
        finishRes := ⟨true, 200, some ⟨true, none, none, none⟩⟩ }).result =
      .ok ⟨true, none, none, none⟩ := by decide

/-- **C1, amended.**  Every normally-returned flow result is one of two
shapes: a failure with an error message and no identity data, or a
success whose `error` is absent and whose identity fields are copied
verbatim from the `ok:true` finish response — so they are absent exactly
when the server omitted them. -/
theorem c1_two_outcome_shapes (envR : RegisterEnv) (envL : LoginEnv) :
    (∀ r, (registerPasskey envR).result = .ok r →
      (r.ok = false → r.userHash = none ∧ r.sessionToken = none ∧ r.error ≠ none) ∧
      (r.ok = true → r.error = none ∧ ∃ fb, envR.finishRes.body = some fb ∧
        fb.ok = true ∧ r.userHash = fb.user_hash ∧ r.sessionToken = fb.session_token)) ∧
    (∀ r, (loginPasskey envL).result = .ok r →
      (r.ok = false → r.userHash = none ∧ r.sessionToken = none ∧ r.error ≠ none) ∧
      (r.ok = true → r.error = none ∧ ∃ fb, envL.finishRes.body = some fb ∧
        fb.ok = true ∧ r.userHash = fb.user_hash ∧ r.sessionToken = fb.session_token)) := by
  constructor
  · intro r hr
    unfold registerPasskey at hr
    repeat' split at hr
    all_goals (simp at hr; try subst hr)
    all_goals (try simp)
    rename_i fb heq hcond
    exact ⟨fb, heq, by simpa using hcond, rfl, rfl⟩
  · intro r hr
    unfold loginPasskey at hr
    repeat' split at hr
    all_goals (simp at hr; try subst hr)
    all_goals (try simp)
    rename_i fb heq hcond
    exact ⟨fb, heq, by simpa using hcond, rfl, rfl⟩

/-- Witness for C1 (amended) at the concrete all-success environments. -/
theorem c1_two_outcome_shapes_witness :
    (⟨true, some "user-hash", some "session-token", none⟩ : AuthResult).error = none ∧
    ∃ fb, goodRegisterEnv.finishRes.body = some fb ∧ fb.ok = true ∧
      (⟨true, some "user-hash", some "session-token", none⟩ : AuthResult).userHash
        = fb.user_hash ∧
      (⟨true, some "user-hash", some "session-token", none⟩ : AuthResult).sessionToken
        = fb.session_token :=
  ((c1_two_outcome_shapes goodRegisterEnv goodLoginEnv).1
    ⟨true, some "user-hash", some "session-token", none⟩ (by decide)).2 rfl

/-- **C4, counterexample.**  The claim states that malformed start
options yield a typed `MalformedServerOptionsError` *result* rather than
an exception escaping the orchestrator.  In the code,
`convertCreationOptions` / `convertRequestOptions` run *outside* the
`try` block, so a start body `\x7b ok:true, options:\x7b\x7d \x7d`
(no `publicKey`) makes the flow throw a `TypeError` instead of returning
any result (the returned promise rejects). -/
theorem c4_counterexample :
    (registerPasskey
      { startRes := ⟨true, 200, some ⟨true, some ⟨none⟩, none⟩⟩
        auth := .nullCred
        finishRes := ⟨true, 200, none⟩ }).result =
      .error (.typeError "cannot read properties of undefined") ∧
    (loginPasskey
      { startRes := ⟨true, 200, some ⟨true, some ⟨none⟩, none⟩⟩
        auth := .nullCred
        finishRes := ⟨true, 200, none⟩ }).result =
      .error (.typeError "cannot read properties of undefined") := by decide

/-- **C4, amended.**  When the start body is accepted but the option
translation fails (missing `publicKey`, `challenge`, `user`, `user.id`,
or an undecodable base64url field), the flow propagates the thrown
exception past the orchestrator boundary — no result record is returned —
and the platform authenticator capability receives zero invocations (and
no finish request is issued). -/
theorem c4_malformed_options_throw
    (envR : RegisterEnv) (envL : LoginEnv)
    (sbR : StartBody ServerCreationOptions) (oR : ServerCreationOptions) (eR : JSError)
    (sbL : StartBody ServerRequestOptions) (oL : ServerRequestOptions) (eL : JSError)
    (hR1 : envR.startRes.body = some sbR) (hR2 : sbR.ok = true)
    (hR3 : sbR.options = some oR)
    (hR4 : convertCreationOptions oR = .error eR)
    (hL1 : envL.startRes.body = some sbL) (hL2 : sbL.ok = true)
    (hL3 : sbL.options = some oL)
    (hL4 : convertRequestOptions oL = .error eL) :
    registerPasskey envR = ⟨.error eR, 0, 0, none⟩ ∧
    loginPasskey envL = ⟨.error eL, 0, 0, none⟩ := by
  constructor
  · simp [registerPasskey, hR1, hR2, hR3, hR4]
  · simp [loginPasskey, hL1, hL2, hL3, hL4]

/-- Witness for C4 (amended) at a concrete malformed environment. -/
theorem c4_malformed_options_throw_witness :
    registerPasskey
      { startRes := ⟨true, 200, some ⟨true, some ⟨some ⟨none, none, none, none,
          none, none, none, none⟩⟩, none⟩⟩
        auth := .nullCred
        finishRes := ⟨true, 200, none⟩ } =
      ⟨.error (.typeError "str.replace is not a function on undefined"), 0, 0, none⟩ ∧
    loginPasskey
      { startRes := ⟨true, 200, some ⟨true, some ⟨some ⟨none, none, none, none, none⟩⟩,
          none⟩⟩
        auth := .nullCred
        finishRes := ⟨true, 200, none⟩ } =
      ⟨.error (.typeError "str.replace is not a function on undefined"), 0, 0, none⟩ :=
  c4_malformed_options_throw _ _
    ⟨true, some ⟨some ⟨none, none, none, none, none, none, none, none⟩⟩, none⟩
    ⟨some ⟨none, none, none, none, none, none, none, none⟩⟩ _
    ⟨true, some ⟨some ⟨none, none, none, none, none⟩⟩, none⟩
    ⟨some ⟨none, none, none, none, none⟩⟩ _
    (by decide) (by decide) (by decide) (by decide)
    (by decide) (by decide) (by decide) (by decide)

/-- **C5, counterexample.**  The claim states that a non-ok HTTP status
on the start or finish response makes the flow fail and never proceed.
The code never reads `res.ok` / `res.status` of the ceremony endpoints:
with HTTP 500 on both start and finish but ordinary JSON bodies, the
register flow proceeds through the authenticator and finish step and
returns success. -/
theorem c5_counterexample :
    (registerPasskey
      { startRes := ⟨false, 500, some ⟨true, some goodCreationOptions, none⟩⟩
        auth := .ok regCred
        finishRes := ⟨false, 500, some ⟨true, some "u", some "t", none⟩⟩ }).result =
      .ok ⟨true, some "u", some "t", none⟩ ∧
    (registerPasskey
      { startRes := ⟨false, 500, some ⟨true, some goodCreationOptions, none⟩⟩
        auth := .ok regCred
        finishRes := ⟨false, 500, some ⟨true, some "u", some "t", none⟩⟩ }).authCalls = 1 ∧
    (registerPasskey
      { startRes := ⟨false, 500, some ⟨true, some goodCreationOptions, none⟩⟩
        auth := .ok regCred
        finishRes := ⟨false, 500, some ⟨true, some "u", some "t", none⟩⟩ }).finishCalls = 1
    := by decide

/-- **C5, amended.**  The flows consult only the parsed response bodies,
never the HTTP status: a start body that is `null`, has a falsy `ok`, or
lacks `options` fails the flow with the server-supplied error message if
present (else the generic fallback) and issues no authenticator or finish
call; a finish body that is `null` or has a falsy `ok` fails the flow
likewise after exactly one finish call; and the run is invariant under
arbitrary changes of the HTTP `ok` / `status` fields of both responses. -/
theorem c5_body_driven_failures :
    (∀ env : RegisterEnv, env.startRes.body = none →
      registerPasskey env =
        ⟨.ok ⟨false, none, none, some "Failed to start registration"⟩, 0, 0, none⟩) ∧
    (∀ (env : RegisterEnv) sb, env.startRes.body = some sb →
      sb.ok = false ∨ sb.options = none →
      registerPasskey env =
        ⟨.ok ⟨false, none, none, some (jsOrStr sb.error "Failed to start registration")⟩,
          0, 0, none⟩) ∧
    (∀ (env : RegisterEnv) sb o req cred fb, env.startRes.body = some sb →
      sb.ok = true → sb.options = some o → convertCreationOptions o = .ok req →
      env.auth = .ok cred → env.finishRes.body = some fb → fb.ok = false →
      (registerPasskey env).result =
        .ok ⟨false, none, none, some (jsOrStr fb.error "Registration failed")⟩ ∧
      (registerPasskey env).finishCalls = 1) ∧
    (∀ (env : RegisterEnv) sb o req cred, env.startRes.body = some sb →
      sb.ok = true → sb.options = some o → convertCreationOptions o = .ok req →
      env.auth = .ok cred → env.finishRes.body = none →
      (registerPasskey env).result =
        .ok ⟨false, none, none, some "Registration failed"⟩ ∧
      (registerPasskey env).finishCalls = 1) ∧
    (∀ (b : Option (StartBody ServerCreationOptions)) a f ok1 s1 ok2 s2 ok1' s1' ok2' s2',
      registerPasskey ⟨⟨ok1, s1, b⟩, a, ⟨ok2, s2, f⟩⟩ =
      registerPasskey ⟨⟨ok1', s1', b⟩, a, ⟨ok2', s2', f⟩⟩) ∧
    (∀ env : LoginEnv, env.startRes.body = none →
      loginPasskey env =
        ⟨.ok ⟨false, none, none, some "Failed to start authentication"⟩, 0, 0, none⟩) ∧
    (∀ (env : LoginEnv) sb, env.startRes.body = some sb →
      sb.ok = false ∨ sb.options = none →
      loginPasskey env =
        ⟨.ok ⟨false, none, none, some (jsOrStr sb.error "Failed to start authentication")⟩,
          0, 0, none⟩) ∧
    (∀ (env : LoginEnv) sb o req cred fb, env.startRes.body = some sb →
      sb.ok = true → sb.options = some o → convertRequestOptions o = .ok req →
      env.auth = .ok cred → env.finishRes.body = some fb → fb.ok = false →
      (loginPasskey env).result =
        .ok ⟨false, none, none, some (jsOrStr fb.error "Authentication failed")⟩ ∧
      (loginPasskey env).finishCalls = 1) ∧
    (∀ (env : LoginEnv) sb o req cred, env.startRes.body = some sb →
      sb.ok = true → sb.options = some o → convertRequestOptions o = .ok req →
      env.auth = .ok cred → env.finishRes.body = none →
      (loginPasskey env).result =
        .ok ⟨false, none, none, some "Authentication failed"⟩ ∧
      (loginPasskey env).finishCalls = 1) ∧
    (∀ (b : Option (StartBody ServerRequestOptions)) a f ok1 s1 ok2 s2 ok1' s1' ok2' s2',
      loginPasskey ⟨⟨ok1, s1, b⟩, a, ⟨ok2, s2, f⟩⟩ =
      loginPasskey ⟨⟨ok1', s1', b⟩, a, ⟨ok2', s2', f⟩⟩) := by
  refine ⟨?_, ?_, ?_, ?_, ?_, ?_, ?_, ?_, ?_, ?_⟩
  · intro env h
    simp [registerPasskey, h]
  · intro env sb h1 h2
    rcases h2 with h2 | h2 <;> simp [registerPasskey, h1, h2]
  · intro env sb o req cred fb h1 h2 h3 h4 h5 h6 h7
    constructor <;> simp [registerPasskey, h1, h2, h3, h4, h5, h6, h7]
  · intro env sb o req cred h1 h2 h3 h4 h5 h6
    constructor <;> simp [registerPasskey, h1, h2, h3, h4, h5, h6]
  · intro b a f ok1 s1 ok2 s2 ok1' s1' ok2' s2'
    rfl
  · intro env h
    simp [loginPasskey, h]
  · intro env sb h1 h2
    rcases h2 with h2 | h2 <;> simp [loginPasskey, h1, h2]
  · intro env sb o req cred fb h1 h2 h3 h4 h5 h6 h7
    constructor <;> simp [loginPasskey, h1, h2, h3, h4, h5, h6, h7]
  · intro env sb o req cred h1 h2 h3 h4 h5 h6
    constructor <;> simp [loginPasskey, h1, h2, h3, h4, h5, h6]
  · intro b a f ok1 s1 ok2 s2 ok1' s1' ok2' s2'
    rfl

/-- Witness for C5 (amended) at concrete environments. -/
theorem c5_body_driven_failures_witness :
    registerPasskey ⟨⟨true, 200, some ⟨false, none, some "start rejected"⟩⟩, .nullCred,
        ⟨true, 200, none⟩⟩ =
      ⟨.ok ⟨false, none, none, some "start rejected"⟩, 0, 0, none⟩ ∧
    ((registerPasskey ⟨goodRegisterEnv.startRes, goodRegisterEnv.auth,
        ⟨true, 200, some ⟨false, none, none, some "finish rejected"⟩⟩⟩).result =
      .ok ⟨false, none, none, some "finish rejected"⟩ ∧
     (registerPasskey ⟨goodRegisterEnv.startRes, goodRegisterEnv.auth,
        ⟨true, 200, some ⟨false, none, none, some "finish rejected"⟩⟩⟩).finishCalls = 1) ∧
    ((registerPasskey ⟨goodRegisterEnv.startRes, goodRegisterEnv.auth,
        ⟨true, 200, none⟩⟩).result =
      .ok ⟨false, none, none, some "Registration failed"⟩ ∧
     (registerPasskey ⟨goodRegisterEnv.startRes, goodRegisterEnv.auth,
        ⟨true, 200, none⟩⟩).finishCalls = 1) ∧
    loginPasskey ⟨⟨true, 200, none⟩, .nullCred, ⟨true, 200, none⟩⟩ =
      ⟨.ok ⟨false, none, none, some "Failed to start authentication"⟩, 0, 0, none⟩ :=
  ⟨by
    have h := c5_body_driven_failures.2.1
      ⟨⟨true, 200, some ⟨false, none, some "start rejected"⟩⟩, .nullCred, ⟨true, 200, none⟩⟩
      ⟨false, none, some "start rejected"⟩ (by decide) (Or.inl (by decide))
    simpa [jsOrStr] using h,
   c5_body_driven_failures.2.2.1 _
      ⟨true, some goodCreationOptions, none⟩ goodCreationOptions
      ⟨[0, 0, 0], some "rp", ⟨[0], "user", "user"⟩, some ["pk-param"], 60000,
        "none", ⟨"platform", "preferred", "preferred"⟩, []⟩
      regCred ⟨false, none, none, some "finish rejected"⟩
      (by decide) (by decide) (by decide) (by decide) (by decide) (by decide) (by decide),
   c5_body_driven_failures.2.2.2.1 _
      ⟨true, some goodCreationOptions, none⟩ goodCreationOptions
      ⟨[0, 0, 0], some "rp", ⟨[0], "user", "user"⟩, some ["pk-param"], 60000,
        "none", ⟨"platform", "preferred", "preferred"⟩, []⟩
      regCred
      (by decide) (by decide) (by decide) (by decide) (by decide) (by decide),
   c5_body_driven_failures.2.2.2.2.2.1
      ⟨⟨true, 200, none⟩, .nullCred, ⟨true, 200, none⟩⟩ (by decide)⟩

/-- **C7.**  When registration start-options omit
`authenticatorSelection`, `timeout` and `attestation`, the translated
platform request defaults `authenticatorAttachment` to `"platform"`,
`residentKey` and `userVerification` to `"preferred"`, `timeout` to
`60000` and `attestation` to `"none"`; when login start-options omit
`timeout` and `userVerification`, the translated request defaults
`timeout` to `60000` and `userVerification` to `"preferred"`. -/
theorem c7_translator_defaults
    (soR : ServerCreationOptions) (pkR : CreationPublicKey)
    (reqR : PlatformCreationOptions)
    (soL : ServerRequestOptions) (pkL : RequestPublicKey)
    (reqL : PlatformRequestOptions)
    (hR1 : soR.publicKey = some pkR)
    (hR2 : pkR.authenticatorSelection = none)
    (hR3 : pkR.timeout = none) (hR4 : pkR.attestation = none)
    (hR5 : convertCreationOptions soR = .ok reqR)
    (hL1 : soL.publicKey = some pkL)
    (hL2 : pkL.timeout = none) (hL3 : pkL.userVerification = none)
    (hL4 : convertRequestOptions soL = .ok reqL) :
    (reqR.authenticatorSelection.authenticatorAttachment = "platform" ∧
     reqR.authenticatorSelection.residentKey = "preferred" ∧
     reqR.authenticatorSelection.userVerification = "preferred" ∧
     reqR.timeout = 60000 ∧ reqR.attestation = "none") ∧
    (reqL.timeout = 60000 ∧ reqL.userVerification = "preferred") := by
  constructor
  · simp only [convertCreationOptions, hR1] at hR5
    repeat' split at hR5
    all_goals simp_all [jsOrStr, jsOrNat]
    all_goals (subst hR5; simp [hR2, hR3, hR4, jsOrStr, jsOrNat])
  · simp only [convertRequestOptions, hL1] at hL4
    repeat' split at hL4
    all_goals simp_all [jsOrStr, jsOrNat]
    all_goals (subst hL4; simp [hL2, hL3, jsOrStr, jsOrNat])

/-- Witness for C7 at concrete well-formed start options. -/
theorem c7_translator_defaults_witness :
    ((⟨[0, 0, 0], some "rp", ⟨[0], "user", "user"⟩, some ["pk-param"], 60000,
        "none", ⟨"platform", "preferred", "preferred"⟩, []⟩ :
          PlatformCreationOptions).authenticatorSelection.authenticatorAttachment
        = "platform" ∧
     (⟨[0, 0, 0], some "rp", ⟨[0], "user", "user"⟩, some ["pk-param"], 60000,
        "none", ⟨"platform", "preferred", "preferred"⟩, []⟩ :
          PlatformCreationOptions).authenticatorSelection.residentKey = "preferred" ∧
     (⟨[0, 0, 0], some "rp", ⟨[0], "user", "user"⟩, some ["pk-param"], 60000,
        "none", ⟨"platform", "preferred", "preferred"⟩, []⟩ :
          PlatformCreationOptions).authenticatorSelection.userVerification
        = "preferred" ∧
     (⟨[0, 0, 0], some "rp", ⟨[0], "user", "user"⟩, some ["pk-param"], 60000,
        "none", ⟨"platform", "preferred", "preferred"⟩, []⟩ :
          PlatformCreationOptions).timeout = 60000 ∧
     (⟨[0, 0, 0], some "rp", ⟨[0], "user", "user"⟩, some ["pk-param"], 60000,
        "none", ⟨"platform", "preferred", "preferred"⟩, []⟩ :
          PlatformCreationOptions).attestation = "none") ∧
    ((⟨[0, 0, 0], 60000, some "rp", [], "preferred"⟩ :
        PlatformRequestOptions).timeout = 60000 ∧
     (⟨[0, 0, 0], 60000, some "rp", [], "preferred"⟩ :
        PlatformRequestOptions).userVerification = "preferred") :=
  c7_translator_defaults goodCreationOptions
    ⟨some "AAAA".toList, some "rp", some ⟨some "AA".toList, "user", none⟩,
      some ["pk-param"], none, none, none, none⟩ _
    goodRequestOptions
    ⟨some "AAAA".toList, none, some "rp", none, none⟩ _
    (by decide) (by decide) (by decide) (by decide) (by decide)
    (by decide) (by decide) (by decide) (by decide)

/-- **C8.**  Issuance outcomes: a 2xx response whose body carries a
truthy `key` (and no `api_key`, no error) yields success with that key;
a 2xx response with neither accepted key field yields the no-key failure;
a non-2xx response, or a response with a truthy `error` field, yields the
rejection failure and never a key. -/
theorem c8_issuance_outcomes
    (env₁ : ApiKeyEnv) (d₁ : ApiKeyBody) (k : String)
    (env₂ : ApiKeyEnv) (d₂ : ApiKeyBody)
    (env₃ : ApiKeyEnv)
    (env₄ : ApiKeyEnv) (d₄ : ApiKeyBody) (m : String)
    (h₁a : env₁.resOk = true) (h₁b : env₁.body = some d₁)
    (h₁c : d₁.error = none) (h₁d : d₁.api_key = none)
    (h₁e : d₁.key = some k) (h₁f : k ≠ "")
    (h₂a : env₂.resOk = true) (h₂b : env₂.body = some d₂)
    (h₂c : d₂.error = none) (h₂d : d₂.api_key = none) (h₂e : d₂.key = none)
    (h₃a : env₃.resOk = false)
    (h₄a : env₄.resOk = true) (h₄b : env₄.body = some d₄)
    (h₄c : d₄.error = some m) (h₄d : m ≠ "") :
    createApiKey env₁ = .ok ⟨true, some k, none⟩ ∧
    createApiKey env₂ = .ok ⟨false, none, some "No API key returned from server"⟩ ∧
    createApiKey env₃ = .ok ⟨false, none,
      some (jsOrStr (env₃.body.bind (·.error))
        ("API key creation failed (" ++ toString env₃.status ++ ")"))⟩ ∧
    createApiKey env₄ = .ok ⟨false, none, some m⟩ := by
  refine ⟨?_, ?_, ?_, ?_⟩
  · simp [createApiKey, h₁a, h₁b, h₁c, h₁d, h₁e, jsTruthyStr, jsOrOpt, h₁f]
  · simp [createApiKey, h₂a, h₂b, h₂c, h₂d, h₂e, jsTruthyStr, jsOrOpt]
  · simp [createApiKey, h₃a]
  · simp [createApiKey, h₄a, h₄b, h₄c, jsTruthyStr, jsOrStr, h₄d]

/-- Witness for C8 at the spec's three concrete exchanges. -/
theorem c8_issuance_outcomes_witness :
    createApiKey ⟨true, 200, some ⟨none, some "sk_live_1", none⟩⟩ =
      .ok ⟨true, some "sk_live_1", none⟩ ∧
    createApiKey ⟨true, 200, some ⟨none, none, none⟩⟩ =
      .ok ⟨false, none, some "No API key returned from server"⟩ ∧
    createApiKey ⟨false, 401, some ⟨none, none, none⟩⟩ = .ok ⟨false, none,
      some (jsOrStr ((some (⟨none, none, none⟩ : ApiKeyBody)).bind (·.error))
        ("API key creation failed (" ++ toString (401 : Nat) ++ ")"))⟩ ∧
    createApiKey ⟨true, 200, some ⟨none, none, some "denied"⟩⟩ =
      .ok ⟨false, none, some "denied"⟩ :=
  c8_issuance_outcomes
    ⟨true, 200, some ⟨none, some "sk_live_1", none⟩⟩ ⟨none, some "sk_live_1", none⟩
    "sk_live_1"
    ⟨true, 200, some ⟨none, none, none⟩⟩ ⟨none, none, none⟩
    ⟨false, 401, some ⟨none, none, none⟩⟩
    ⟨true, 200, some ⟨none, none, some "denied"⟩⟩ ⟨none, none, some "denied"⟩ "denied"
    rfl rfl rfl rfl rfl (by decide) rfl rfl rfl rfl rfl rfl rfl rfl rfl (by decide)

/-- **C10.**  The `api_key` field takes precedence over `key`: a truthy
`api_key` is returned regardless of `key`; `key` is consulted only when
`api_key` is absent or empty; and a present-but-empty `api_key` with an
absent `key` yields the no-key failure, not an empty key. -/
theorem c10_api_key_precedence
    (env₁ : ApiKeyEnv) (d₁ : ApiKeyBody) (a : String)
    (env₂ : ApiKeyEnv) (d₂ : ApiKeyBody) (k : String)
    (env₃ : ApiKeyEnv) (d₃ : ApiKeyBody)
    (h₁a : env₁.resOk = true) (h₁b : env₁.body = some d₁)
    (h₁c : d₁.error = none) (h₁d : d₁.api_key = some a) (h₁e : a ≠ "")
    (h₂a : env₂.resOk = true) (h₂b : env₂.body = some d₂)
    (h₂c : d₂.error = none) (h₂d : d₂.api_key = none ∨ d₂.api_key = some "")
    (h₂e : d₂.key = some k) (h₂f : k ≠ "")
    (h₃a : env₃.resOk = true) (h₃b : env₃.body = some d₃)
    (h₃c : d₃.error = none) (h₃d : d₃.api_key = some "") (h₃e : d₃.key = none) :
    createApiKey env₁ = .ok ⟨true, some a, none⟩ ∧
    createApiKey env₂ = .ok ⟨true, some k, none⟩ ∧
    createApiKey env₃ = .ok ⟨false, none, some "No API key returned from server"⟩ := by
  refine ⟨?_, ?_, ?_⟩
  · simp [createApiKey, h₁a, h₁b, h₁c, h₁d, jsTruthyStr, jsOrOpt, h₁e]
  · rcases h₂d with h₂d | h₂d <;>
      simp [createApiKey, h₂a, h₂b, h₂c, h₂d, h₂e, jsTruthyStr, jsOrOpt, h₂f]
  · simp [createApiKey, h₃a, h₃b, h₃c, h₃d, h₃e, jsTruthyStr, jsOrOpt]

/-- Witness for C10 at concrete bodies: both fields truthy, empty
`api_key` with truthy `key`, and empty `api_key` with absent `key`. -/
theorem c10_api_key_precedence_witness :
    createApiKey ⟨true, 200, some ⟨some "primary", some "secondary", none⟩⟩ =
      .ok ⟨true, some "primary", none⟩ ∧
    createApiKey ⟨true, 200, some ⟨some "", some "secondary", none⟩⟩ =
      .ok ⟨true, some "secondary", none⟩ ∧
    createApiKey ⟨true, 200, some ⟨some "", none, none⟩⟩ =
      .ok ⟨false, none, some "No API key returned from server"⟩ :=
  c10_api_key_precedence
    ⟨true, 200, some ⟨some "primary", some "secondary", none⟩⟩
    ⟨some "primary", some "secondary", none⟩ "primary"
    ⟨true, 200, some ⟨some "", some "secondary", none⟩⟩
    ⟨some "", some "secondary", none⟩ "secondary"
    ⟨true, 200, some ⟨some "", none, none⟩⟩ ⟨some "", none, none⟩
    rfl rfl rfl rfl (by decide) rfl rfl rfl (Or.inr rfl) rfl (by decide)
    rfl rfl rfl rfl rfl

/-- **C9, counterexample.**  The claim states that a ceremony started
while another is pending is rejected with `CeremonyAlreadyInProgress` and
the authenticator capability receives zero invocations for it.  The
module has no shared mutable state at all (`registerPasskey` /
`loginPasskey` are functions of nothing but their own responses), so a
flow cannot observe a pending ceremony: here a login attempt made while
the register ceremony is in flight runs to completion, invoking the
authenticator once, instead of failing with any rejection — and the
register flow likewise never sees the login attempt. -/
theorem c9_counterexample :
    (loginPasskey goodLoginEnv).authCalls = 1 ∧
    (loginPasskey goodLoginEnv).result =
      .ok ⟨true, some "user-hash", some "session-token", none⟩ ∧
    (registerPasskey goodRegisterEnv).authCalls = 1 ∧
    (registerPasskey goodRegisterEnv).result =
      .ok ⟨true, some "user-hash", some "session-token", none⟩ := by decide

/-- **C9, amended.**  The code has no concurrency guard: a flow's
behaviour is a function of its own environment only (there is no
in-progress state it could consult), so *every* start attempt whose start
body is accepted and convertible invokes the platform authenticator
exactly once and completes with a returned result — regardless of any
other pending ceremony; no `CeremonyAlreadyInProgress` rejection path
exists, and overlapping ceremonies each invoke the authenticator. -/
theorem c9_no_concurrency_guard
    (envR : RegisterEnv) (envL : LoginEnv)
    (sbR : StartBody ServerCreationOptions) (oR : ServerCreationOptions)
    (reqR : PlatformCreationOptions)
    (sbL : StartBody ServerRequestOptions) (oL : ServerRequestOptions)
    (reqL : PlatformRequestOptions)
    (hR1 : envR.startRes.body = some sbR) (hR2 : sbR.ok = true)
    (hR3 : sbR.options = some oR)
    (hR4 : convertCreationOptions oR = .ok reqR)
    (hL1 : envL.startRes.body = some sbL) (hL2 : sbL.ok = true)
    (hL3 : sbL.options = some oL)
    (hL4 : convertRequestOptions oL = .ok reqL) :
    ((registerPasskey envR).authCalls = 1 ∧
     ∃ r, (registerPasskey envR).result = .ok r) ∧
    ((loginPasskey envL).authCalls = 1 ∧
     ∃ r, (loginPasskey envL).result = .ok r) := by
  constructor
  · unfold registerPasskey
    rw [hR1]
    simp only [hR2, hR3, hR4]
    rw [if_neg (by simp : ¬(true = false ∨ (some oR : Option ServerCreationOptions) = none))]
    cases envR.auth with
    | ok cred =>
      cases hb : envR.finishRes.body with
      | none => simp
      | some fb => by_cases hfb : fb.ok = false <;> simp [hfb]
    | nullCred => simp
    | err m => simp
  · unfold loginPasskey
    rw [hL1]
    simp only [hL2, hL3, hL4]
    rw [if_neg (by simp : ¬(true = false ∨ (some oL : Option ServerRequestOptions) = none))]
    cases envL.auth with
    | ok cred =>
      cases hb : envL.finishRes.body with
      | none => simp
      | some fb => by_cases hfb : fb.ok = false <;> simp [hfb]
    | nullCred => simp
    | err m => simp

/-- Witness for C9 (amended) at the two concrete overlapping flows. -/
theorem c9_no_concurrency_guard_witness :
    ((registerPasskey goodRegisterEnv).authCalls = 1 ∧
     ∃ r, (registerPasskey goodRegisterEnv).result = .ok r) ∧
    ((loginPasskey goodLoginEnv).authCalls = 1 ∧
     ∃ r, (loginPasskey goodLoginEnv).result = .ok r) :=
  c9_no_concurrency_guard goodRegisterEnv goodLoginEnv
    ⟨true, some goodCreationOptions, none⟩ goodCreationOptions
    ⟨[0, 0, 0], some "rp", ⟨[0], "user", "user"⟩, some ["pk-param"], 60000,
      "none", ⟨"platform", "preferred", "preferred"⟩, []⟩
    ⟨true, some goodRequestOptions, none⟩ goodRequestOptions
    ⟨[0, 0, 0], 60000, some "rp", [], "preferred"⟩
    (by decide) (by decide) (by decide) (by decide)
    (by decide) (by decide) (by decide) (by decide)

/-! ## Codec lemmas -/

theorem b64Val_b64Char : ∀ n, n < 64 → b64Val (b64Char n) = some n := by decide

theorem b64Char_props : ∀ n, n < 64 → b64Char n ≠ '=' ∧
    isAsciiWhitespace (b64Char n) = false ∧
    stdOfUrl (urlOfStd (b64Char n)) = b64Char n ∧
    urlOfStd (b64Char n) ≠ '=' ∧
    isAsciiWhitespace (urlOfStd (b64Char n)) = false := by decide

/-- Structure of `btoa` output: an `=`-free core of alphabet characters
followed by at most two `=`, total length a multiple of 4, whose sextets
decode back to the input bytes. -/
theorem btoa_structure :
    ∀ b : List Nat, (∀ x ∈ b, x < 256) →
      ∃ core k s, btoaChars b = core ++ List.replicate k '=' ∧ k ≤ 2 ∧
        (core.length + k) % 4 = 0 ∧
        (∀ c ∈ core, ∃ n, n < 64 ∧ c = b64Char n) ∧
        sextets core = some s ∧ bytesOfSextets s = b
  | [], _ => ⟨[], 0, [], by simp [btoaChars, sextets, bytesOfSextets]⟩
  | [a], h => by
      have ha : a < 256 := h a (by simp)
      refine ⟨[b64Char (a / 4), b64Char (a % 4 * 16)], 2, [a / 4, a % 4 * 16],
        ?_, by omega, by simp, ?_, ?_, ?_⟩
      · simp [btoaChars, List.replicate]
      · intro x hx
        simp at hx
        rcases hx with rfl | rfl
        · exact ⟨a / 4, by omega, rfl⟩
        · exact ⟨a % 4 * 16, by omega, rfl⟩
      · simp [sextets, b64Val_b64Char _ (show a / 4 < 64 by omega),
          b64Val_b64Char _ (show a % 4 * 16 < 64 by omega)]
      · simp [bytesOfSextets]
        omega
  | [a, b], h => by
      have ha : a < 256 := h a (by simp)
      have hb : b < 256 := h b (by simp)
      refine ⟨[b64Char (a / 4), b64Char (a % 4 * 16 + b / 16), b64Char (b % 16 * 4)],
        1, [a / 4, a % 4 * 16 + b / 16, b % 16 * 4],
        ?_, by omega, by simp, ?_, ?_, ?_⟩
      · simp [btoaChars, List.replicate]
      · intro x hx
        simp at hx
        rcases hx with rfl | rfl | rfl
        · exact ⟨a / 4, by omega, rfl⟩
        · exact ⟨a % 4 * 16 + b / 16, by omega, rfl⟩
        · exact ⟨b % 16 * 4, by omega, rfl⟩
      · simp [sextets, b64Val_b64Char _ (show a / 4 < 64 by omega),
          b64Val_b64Char _ (show a % 4 * 16 + b / 16 < 64 by omega),
          b64Val_b64Char _ (show b % 16 * 4 < 64 by omega)]
      · simp [bytesOfSextets]
        omega
  | a :: b :: c :: rest, h => by
      obtain ⟨core, k, s, h1, h2, h3, h4, h5, h6⟩ :=
        btoa_structure rest (fun x hx => h x (by simp [hx]))
      have ha : a < 256 := h a (by simp)
      have hb : b < 256 := h b (by simp)
      have hc : c < 256 := h c (by simp)
      refine ⟨btoa3 a b c ++ core, k,
        (a / 4) :: (a % 4 * 16 + b / 16) :: (b % 16 * 4 + c / 64) :: (c % 64) :: s,
        ?_, h2, ?_, ?_, ?_, ?_⟩
      · show btoa3 a b c ++ btoaChars rest = _
        rw [h1, List.append_assoc]
      · simp [btoa3]
        omega
      · intro x hx
        rcases List.mem_append.mp hx with hx | hx
        · simp [btoa3] at hx
          rcases hx with rfl | rfl | rfl | rfl
          · exact ⟨a / 4, by omega, rfl⟩
          · exact ⟨a % 4 * 16 + b / 16, by omega, rfl⟩
          · exact ⟨b % 16 * 4 + c / 64, by omega, rfl⟩
          · exact ⟨c % 64, by omega, rfl⟩
        · exact h4 x hx
      · simp [btoa3, sextets, b64Val_b64Char _ (show a / 4 < 64 by omega),
          b64Val_b64Char _ (show a % 4 * 16 + b / 16 < 64 by omega),
          b64Val_b64Char _ (show b % 16 * 4 + c / 64 < 64 by omega),
          b64Val_b64Char _ (show c % 64 < 64 by omega), h5]
      · simp [bytesOfSextets, h6]
        omega

/-- Stripping trailing `=` from an `=`-free list followed by `=`-padding
recovers the list. -/
theorem dropTrailingEq_spec (m : List Char) (hm : '=' ∉ m) (k : Nat) :
    dropTrailingEq (m ++ List.replicate k '=') = m := by
  unfold dropTrailingEq
  rw [List.reverse_append, List.reverse_replicate]
  have h1 : ∀ j, List.dropWhile (fun c => decide (c = '='))
      (List.replicate j '=' ++ m.reverse) =
      List.dropWhile (fun c => decide (c = '=')) m.reverse := by
    intro j
    induction j with
    | zero => simp
    | succ n ih =>
      rw [List.replicate_succ, List.cons_append, List.dropWhile_cons,
        if_pos (by simp)]
      exact ih
  rw [h1]
  cases hm2 : m.reverse with
  | nil => simp_all
  | cons x t =>
    have hx : x ∈ m := List.mem_reverse.mp (by rw [hm2]; simp)
    have hxne : ¬(x = '=') := fun e => hm (e ▸ hx)
    rw [List.dropWhile_cons, if_neg (by simp [hxne]), ← hm2,
      List.reverse_reverse]

/-- `padTo4` restores exactly the padding stripped by the encoder. -/
theorem padTo4_append_rep (m : List Char) (k : Nat) (hk : k ≤ 2)
    (hmod : (m.length + k) % 4 = 0) :
    padTo4 m = m ++ List.replicate k '=' := by
  unfold padTo4
  interval_cases k
  · have h0 : m.length % 4 = 0 := by omega
    simp [h0]
  · have h1 : m.length % 4 = 3 := by omega
    simp [h1]
  · have h2 : m.length % 4 = 2 := by omega
    simp [h2]

/-- Filtering whitespace away from a whitespace-free list is the identity. -/
theorem filter_not_ws (l : List Char) (hl : ∀ c ∈ l, isAsciiWhitespace c = false) :
    l.filter (fun c => !isAsciiWhitespace c) = l := by
  induction l with
  | nil => rfl
  | cons x t ih =>
    have hx := hl x (by simp)
    rw [List.filter_cons]
    simp [hx, ih (fun c hc => hl c (by simp [hc]))]

/-- `dropPadAtob` removes exactly the `=`-padding of a `btoa` output. -/
theorem dropPadAtob_append_rep (m : List Char) (hm : '=' ∉ m) (k : Nat)
    (hk : k ≤ 2) (hne : k ≠ 0 → m ≠ []) :
    dropPadAtob (m ++ List.replicate k '=') = m := by
  unfold dropPadAtob
  interval_cases k
  · simp only [List.replicate_zero, List.append_nil]
    cases hm2 : m.reverse with
    | nil => simp_all
    | cons x t =>
      have hx : x ∈ m := List.mem_reverse.mp (by rw [hm2]; simp)
      have hxne : ¬(x = '=') := fun e => hm (e ▸ hx)
      have t2 : ¬(List.take 2 (x :: t) = ['=', '=']) := by
        cases t <;> simp [List.take, hxne]
      have t1 : ¬(List.take 1 (x :: t) = ['=']) := by simp [List.take, hxne]
      rw [if_neg t2, if_neg t1, ← hm2, List.reverse_reverse]
  · have hm0 : m ≠ [] := hne (by omega)
    rw [List.reverse_append, List.reverse_replicate]
    cases hm2 : m.reverse with
    | nil => exact absurd (by simpa using hm2) hm0
    | cons x t =>
      have hx : x ∈ m := List.mem_reverse.mp (by rw [hm2]; simp)
      have hxne : ¬(x = '=') := fun e => hm (e ▸ hx)
      have hr : List.replicate 1 '=' ++ (x :: t) = '=' :: x :: t := by simp
      rw [hr]
      have t2 : ¬(List.take 2 ('=' :: x :: t) = ['=', '=']) := by
        simp [List.take, hxne]
      have t1 : List.take 1 ('=' :: x :: t) = ['='] := by simp [List.take]
      rw [if_neg t2, if_pos t1]
      show (List.drop 1 ('=' :: x :: t)).reverse = m
      rw [show List.drop 1 ('=' :: x :: t) = x :: t from rfl, ← hm2,
        List.reverse_reverse]
  · rw [List.reverse_append, List.reverse_replicate]
    have hr : List.replicate 2 '=' ++ m.reverse = '=' :: '=' :: m.reverse := by simp
    rw [hr]
    have t2 : List.take 2 ('=' :: '=' :: m.reverse) = ['=', '='] := by
      simp [List.take]
    rw [if_pos t2]
    show (List.drop 2 ('=' :: '=' :: m.reverse)).reverse = m
    rw [show List.drop 2 ('=' :: '=' :: m.reverse) = m.reverse from rfl,
      List.reverse_reverse]

/-- A character with no sextet value poisons the whole decode. -/
theorem sextets_none_of_mem (l : List Char) (c : Char) (hc : c ∈ l)
    (hv : b64Val c = none) : sextets l = none := by
  induction l with
  | nil => simp at hc
  | cons x t ih =>
    rcases List.mem_cons.mp hc with rfl | hc
    · simp [sextets, hv]
    · cases hx : b64Val x <;> simp [sextets, hx, ih hc]

/-- A non-`=` character survives `dropPadAtob`. -/
theorem mem_dropPadAtob (l : List Char) (c : Char) (hc : c ∈ l)
    (hne : c ≠ '=') : c ∈ dropPadAtob l := by
  unfold dropPadAtob
  have hcr : c ∈ l.reverse := List.mem_reverse.mpr hc
  split
  · rename_i htake
    have hsplit : c ∈ l.reverse.take 2 ++ l.reverse.drop 2 := by
      rw [List.take_append_drop]; exact hcr
    rcases List.mem_append.mp hsplit with h | h
    · rw [htake] at h
      simp at h
      exact absurd h hne
    · simpa using h
  · split
    · rename_i htake
      have hsplit : c ∈ l.reverse.take 1 ++ l.reverse.drop 1 := by
        rw [List.take_append_drop]; exact hcr
      rcases List.mem_append.mp hsplit with h | h
      · rw [htake] at h
        simp at h
        exact absurd h hne
      · simpa using h
    · simpa using hcr

/-- `atobStripped` of an alphabet core followed by its padding is the core. -/
theorem atobStripped_core (core : List Char) (k : Nat) (hk : k ≤ 2)
    (hmod : (core.length + k) % 4 = 0)
    (hmem : ∀ c ∈ core, ∃ n, n < 64 ∧ c = b64Char n) :
    atobStripped (core ++ List.replicate k '=') = core := by
  have hnoeq : '=' ∉ core := by
    intro hin
    obtain ⟨n, hn, hEq⟩ := hmem _ hin
    exact (b64Char_props n hn).1 hEq.symm
  have hnws : ∀ c ∈ core ++ List.replicate k '=', isAsciiWhitespace c = false := by
    intro c hcm
    rcases List.mem_append.mp hcm with hcm | hcm
    · obtain ⟨n, hn, rfl⟩ := hmem _ hcm
      exact (b64Char_props n hn).2.1
    · have hce : c = '=' := List.eq_of_mem_replicate hcm
      subst hce; decide
  unfold atobStripped wsStripped
  rw [filter_not_ws _ hnws]
  have hlen : (core ++ List.replicate k '=').length % 4 = 0 := by
    simp [List.length_append]
    omega
  rw [if_pos hlen]
  exact dropPadAtob_append_rep core hnoeq k hk
    (fun hk0 h0 => by subst h0; simp at hmod; omega)

/-- `atob` of an alphabet core followed by its padding reassembles the bytes. -/
theorem atob_core (core : List Char) (k : Nat) (s : List Nat) (hk : k ≤ 2)
    (hmod : (core.length + k) % 4 = 0)
    (hmem : ∀ c ∈ core, ∃ n, n < 64 ∧ c = b64Char n)
    (hsex : sextets core = some s) :
    atobBytes (core ++ List.replicate k '=') = some (bytesOfSextets s) := by
  unfold atobBytes
  rw [atobStripped_core core k hk hmod hmem]
  rw [if_neg (by omega), hsex]
  rfl

/-- Round-trip of the codec, in both the padding-stripped form the encoder
produces and the `=`-padded form. -/
theorem decode_encode (b : List Nat) (hb : ∀ x ∈ b, x < 256) :
    base64UrlDecode (base64UrlEncode b) = some b ∧
    base64UrlDecode (padTo4 (base64UrlEncode b)) = some b := by
  obtain ⟨core, k, s, h1, h2, h3, h4, h5, h6⟩ := btoa_structure b hb
  have hcoreEq : '=' ∉ List.map urlOfStd core := by
    intro hin
    obtain ⟨c, hcm, hce⟩ := List.mem_map.mp hin
    obtain ⟨n, hn, rfl⟩ := h4 _ hcm
    exact (b64Char_props n hn).2.2.2.1 hce
  have henc : base64UrlEncode b = List.map urlOfStd core := by
    unfold base64UrlEncode
    rw [h1, List.map_append, List.map_replicate]
    have he : urlOfStd '=' = '=' := by decide
    rw [he, dropTrailingEq_spec _ hcoreEq k]
  have hstd : List.map stdOfUrl (List.map urlOfStd core) = core := by
    rw [List.map_map]
    have hcg : ∀ c ∈ core, (stdOfUrl ∘ urlOfStd) c = id c := by
      intro c hcm
      obtain ⟨n, hn, rfl⟩ := h4 _ hcm
      exact (b64Char_props n hn).2.2.1
    rw [List.map_congr_left hcg, List.map_id]
  constructor
  · unfold base64UrlDecode
    rw [henc, hstd]
    rw [padTo4_append_rep core k h2 h3]
    rw [atob_core core k s h2 h3 h4 h5, h6]
  · unfold base64UrlDecode
    rw [henc]
    rw [padTo4_append_rep (List.map urlOfStd core) k h2 (by simpa using h3)]
    rw [List.map_append, hstd, List.map_replicate]
    have he : stdOfUrl '=' = '=' := by decide
    rw [he]
    have hlen : (core ++ List.replicate k '=').length % 4 = 0 := by
      simp [List.length_append]
      omega
    unfold padTo4
    rw [if_pos hlen]
    rw [atob_core core k s h2 h3 h4 h5, h6]

/-- Characterisation of the base64url alphabet predicate. -/
theorem isB64UrlChar_iff (c : Char) : isB64UrlChar c = true ↔
    (65 ≤ c.toNat ∧ c.toNat ≤ 90) ∨ (97 ≤ c.toNat ∧ c.toNat ≤ 122) ∨
    (48 ≤ c.toNat ∧ c.toNat ≤ 57) ∨ c = '-' ∨ c = '_' := by
  simp [isB64UrlChar]
  tauto

/-- A character that can reach `sextets` and has no value poisons `atob`. -/
theorem atobBytes_none_of_bad (l : List Char) (c : Char) (hc : c ∈ l)
    (hnw : isAsciiWhitespace c = false) (hne : c ≠ '=') (hbv : b64Val c = none) :
    atobBytes l = none := by
  have h1 : c ∈ wsStripped l := List.mem_filter.mpr ⟨hc, by simp [hnw]⟩
  have h2 : c ∈ atobStripped l := by
    unfold atobStripped
    split
    · exact mem_dropPadAtob _ c h1 hne
    · exact h1
  unfold atobBytes
  split
  · rfl
  · rw [sextets_none_of_mem _ c h2 hbv]
    rfl

/-- Decoding fails on any input containing a character outside the
base64url alphabet extended with `+`, `/`, `=` and ASCII whitespace. -/
theorem decode_none_of_badchar (s : List Char) (c : Char) (hc : c ∈ s)
    (h1 : isB64UrlChar c = false) (h2 : c ≠ '+') (h3 : c ≠ '/') (h4 : c ≠ '=')
    (h5 : isAsciiWhitespace c = false) :
    base64UrlDecode s = none := by
  have hdash : c ≠ '-' := by rintro rfl; exact absurd h1 (by decide)
  have hus : c ≠ '_' := by rintro rfl; exact absurd h1 (by decide)
  have hnotin : ¬((65 ≤ c.toNat ∧ c.toNat ≤ 90) ∨ (97 ≤ c.toNat ∧ c.toNat ≤ 122) ∨
      (48 ≤ c.toNat ∧ c.toNat ≤ 57) ∨ c = '-' ∨ c = '_') := by
    rw [← isB64UrlChar_iff]
    simp [h1]
  have hbv : b64Val c = none := by
    unfold b64Val
    rw [if_neg (fun p => hnotin (Or.inl p)),
      if_neg (fun p => hnotin (Or.inr (Or.inl p))),
      if_neg (fun p => hnotin (Or.inr (Or.inr (Or.inl p)))),
      if_neg h2, if_neg h3]
  have hcs : stdOfUrl c = c := by
    unfold stdOfUrl
    rw [if_neg hdash, if_neg hus]
  have m1 : c ∈ List.map stdOfUrl s := List.mem_map.mpr ⟨c, hc, hcs⟩
  have m2 : c ∈ padTo4 (List.map stdOfUrl s) := by
    unfold padTo4
    split
    · exact m1
    · exact List.mem_append_left _ m1
  exact atobBytes_none_of_bad _ c m2 h5 h4 hbv

/-- Decoding fails on any input whose length is ≡ 1 mod 4. -/
theorem decode_none_of_len1 (s : List Char) (h : s.length % 4 = 1) :
    base64UrlDecode s = none := by
  unfold base64UrlDecode
  have hlen : (List.map stdOfUrl s).length % 4 = 1 := by
    rw [List.length_map]; exact h
  have hpad : padTo4 (List.map stdOfUrl s) =
      List.map stdOfUrl s ++ List.replicate 3 '=' := by
    unfold padTo4
    rw [if_neg (by omega), hlen]
  rw [hpad]
  have hws : wsStripped (List.map stdOfUrl s ++ List.replicate 3 '=') =
      wsStripped (List.map stdOfUrl s) ++ List.replicate 3 '=' := by
    unfold wsStripped
    rw [List.filter_append]
    congr 1
  set y := wsStripped (List.map stdOfUrl s) with hy
  unfold atobBytes atobStripped
  rw [hws]
  by_cases h0 : (y ++ List.replicate 3 '=').length % 4 = 0
  · rw [if_pos h0]
    have hdp : dropPadAtob (y ++ List.replicate 3 '=') = y ++ ['='] := by
      unfold dropPadAtob
      rw [List.reverse_append, List.reverse_replicate]
      have hr : List.replicate 3 '=' ++ y.reverse = '=' :: '=' :: '=' :: y.reverse :=
        rfl
      rw [hr]
      rw [if_pos (by simp [List.take])]
      show (List.drop 2 ('=' :: '=' :: '=' :: y.reverse)).reverse = y ++ ['=']
      rw [show List.drop 2 ('=' :: '=' :: '=' :: y.reverse) = '=' :: y.reverse from
        rfl]
      rw [List.reverse_cons, List.reverse_reverse]
    rw [hdp]
    have hl2 : (y ++ ['=']).length % 4 ≠ 1 := by
      simp only [List.length_append, List.length_singleton] at h0 ⊢
      simp only [List.length_replicate] at h0
      omega
    rw [if_neg hl2]
    rw [sextets_none_of_mem (y ++ ['=']) '=' (by simp) (by decide)]
    rfl
  · rw [if_neg h0]
    by_cases h1 : (y ++ List.replicate 3 '=').length % 4 = 1
    · rw [if_pos h1]
    · rw [if_neg h1]
      rw [sextets_none_of_mem (y ++ List.replicate 3 '=') '='
        (List.mem_append_right _ (by simp [List.mem_replicate])) (by decide)]
      rfl

/-- **C3.**  Decoding the encoding of any byte sequence returns the
sequence: `base64UrlDecode (base64UrlEncode b) = b` for every list of
bytes, including the empty one and every length class mod 3. -/
theorem c3_roundtrip (b : List Nat) (hb : ∀ x ∈ b, x < 256) :
    base64UrlDecode (base64UrlEncode b) = some b :=
  (decode_encode b hb).1

/-- Witness for C3 at one byte list of each length class mod 3,
including the empty sequence. -/
theorem c3_roundtrip_witness :
    base64UrlDecode (base64UrlEncode []) = some [] ∧
    base64UrlDecode (base64UrlEncode [104]) = some [104] ∧
    base64UrlDecode (base64UrlEncode [104, 101]) = some [104, 101] ∧
    base64UrlDecode (base64UrlEncode [255, 0, 77]) = some [255, 0, 77] ∧
    base64UrlDecode (base64UrlEncode [1, 2, 3, 4]) = some [1, 2, 3, 4] :=
  ⟨c3_roundtrip [] (by decide), c3_roundtrip [104] (by decide),
   c3_roundtrip [104, 101] (by decide), c3_roundtrip [255, 0, 77] (by decide),
   c3_roundtrip [1, 2, 3, 4] (by decide)⟩

/-- **C6, counterexample.**  The claim states that decoding fails on
*every* input containing a character outside the base64url alphabet.
The decoder's substitutions leave `+` and `/` untouched and the platform
`atob` accepts them (and strips ASCII whitespace), so inputs containing
these out-of-alphabet characters decode successfully. -/
theorem c6_counterexample :
    base64UrlDecode "+AAA".toList = some [248, 0, 0] ∧
    isB64UrlChar '+' = false ∧
    base64UrlDecode "AAA ".toList = some [0, 0] ∧
    isB64UrlChar ' ' = false := by decide

/-- **C6, amended.**  Decoding fails on every input containing a
character outside the base64url alphabet *extended with* `+`, `/`, `=`
and ASCII whitespace (standard-alphabet characters pass the url-to-std
substitution unchanged and whitespace is stripped by `atob`, so those can
be accepted); it fails on every input whose length is ≡ 1 mod 4; and it
accepts every valid encoding in both padding-stripped and padded form. -/
theorem c6_decode_contract :
    (∀ (s : List Char) (c : Char), c ∈ s → isB64UrlChar c = false →
      c ≠ '+' → c ≠ '/' → c ≠ '=' → isAsciiWhitespace c = false →
      base64UrlDecode s = none) ∧
    (∀ s : List Char, s.length % 4 = 1 → base64UrlDecode s = none) ∧
    (∀ b : List Nat, (∀ x ∈ b, x < 256) →
      base64UrlDecode (base64UrlEncode b) = some b ∧
      base64UrlDecode (padTo4 (base64UrlEncode b)) = some b) :=
  ⟨decode_none_of_badchar, decode_none_of_len1, decode_encode⟩

/-- Witness for C6 (amended): a rejected bad character, a rejected
length ≡ 1 mod 4, and an accepted stripped and padded pair. -/
theorem c6_decode_contract_witness :
    base64UrlDecode "*AAA".toList = none ∧
    base64UrlDecode "aaaaA".toList = none ∧
    base64UrlDecode (base64UrlEncode [104, 101]) = some [104, 101] ∧
    base64UrlDecode (padTo4 (base64UrlEncode [104, 101])) = some [104, 101] :=
  ⟨c6_decode_contract.1 "*AAA".toList '*' (by decide) (by decide) (by decide)
      (by decide) (by decide) (by decide),
   c6_decode_contract.2.1 "aaaaA".toList (by decide),
   (c6_decode_contract.2.2 [104, 101] (by decide)).1,
   (c6_decode_contract.2.2 [104, 101] (by decide)).2⟩

end Passkey
